import Mathlib

/-
  Verification of the S3 upload engine
  (ccx_messaging/engines/s3_upload_engine.py).

  The engine's pure logic is embedded shallowly:
  - the regular expression S3_ARCHIVE_PATTERN becomes a deterministic
    matcher on character lists (the pattern has no ambiguity: each
    quantified class is either of fixed width or is followed by a
    delimiter outside the class, so greedy matching with backtracking
    coincides with maximal-munch),
  - the broker (a mutable string-keyed mapping) becomes an association
    list threaded explicitly,
  - `process` becomes a function from the broker, the local path and the
    behaviour of the external uploader to an outcome recording the fired
    notifications, the attempted uploads, the final broker and the
    result (normal return or raised error).
-/

/-! ## Character classes of S3_ARCHIVE_PATTERN -/

/-- Class `[0-9]` of the regular expression. -/
def isDigitC (c : Char) : Bool := '0' ≤ c && c ≤ '9'

/-- Class `[a-z]`. -/
def isLowerC (c : Char) : Bool := 'a' ≤ c && c ≤ 'z'

/-- Class `[A-Z]`. -/
def isUpperC (c : Char) : Bool := 'A' ≤ c && c ≤ 'Z'

/-- Class `[0-9,a-z,-]` used for the `cluster_id` group: digits, comma,
lowercase letters and hyphen (the comma is a literal member of the class). -/
def isClusterChar (c : Char) : Bool :=
  isDigitC c || c = ',' || isLowerC c || c = '-'

/-- Class `[a-z,A-Z,0-9]` used for the `id` group: lowercase, comma,
uppercase and digits. -/
def isIdChar (c : Char) : Bool :=
  isLowerC c || c = ',' || isUpperC c || isDigitC c

/-! ## The match result: named groups of S3_ARCHIVE_PATTERN -/

/-- The named groups produced by a successful match of
`S3_ARCHIVE_PATTERN` (`match_.groupdict()`). -/
structure ArchiveComponents where
  org_id : String
  cluster_id : String
  archive : String
  timestamp : String
  year : String
  month : String
  day : String
  time : String
  id : String
deriving DecidableEq, Repr

/-- Continuation of the matcher after `<org_id>/<cluster_id>/`:
parses `(?P<year>[0-9]{4})(?P<month>[0-9]{2})(?P<day>[0-9]{2})`
`(?P<time>[0-9]{6})-(?P<id>[a-z,A-Z,0-9]*)` from `rest` and assembles
the group dictionary.  Trailing content after the `id` group is allowed
(`re.match` anchors only at the start). -/
def parseTimestampId (org cluster rest : List Char) : Option ArchiveComponents :=
  let year := rest.take 4
  let month := (rest.drop 4).take 2
  let day := (rest.drop 6).take 2
  let time := (rest.drop 8).take 6
  if year.length = 4 ∧ year.all isDigitC ∧ month.length = 2 ∧ month.all isDigitC
      ∧ day.length = 2 ∧ day.all isDigitC ∧ time.length = 6 ∧ time.all isDigitC then
    match rest.drop 14 with
    | '-' :: r8 =>
      let idc := r8.takeWhile isIdChar
      let ts := year ++ month ++ day ++ time
      some {
        org_id := String.mk org
        cluster_id := String.mk cluster
        archive := String.mk (ts ++ '-' :: idc)
        timestamp := String.mk ts
        year := String.mk year
        month := String.mk month
        day := String.mk day
        time := String.mk time
        id := String.mk idc }
    | _ => none
  else none

/-- `S3_ARCHIVE_PATTERN.match` on a character list:
`(?P<org_id>[0-9]+)/(?P<cluster_id>[0-9,a-z,-]{36})/...`.
The `[0-9]+` group is followed by `/`, which is outside the class, so
the greedy match is the maximal digit run; `{36}` is a fixed width. -/
def s3ArchiveMatchList (cs : List Char) : Option ArchiveComponents :=
  match cs.takeWhile isDigitC with
  | [] => none
  | o :: os =>
    match cs.dropWhile isDigitC with
    | '/' :: r2 =>
      if (r2.take 36).length = 36 ∧ (r2.take 36).all isClusterChar then
        match r2.drop 36 with
        | '/' :: r3 => parseTimestampId (o :: os) (r2.take 36) r3
        | _ => none
      else none
    | _ => none

/-- `S3_ARCHIVE_PATTERN.match(s)` returning `groupdict()` on success. -/
def S3_ARCHIVE_PATTERN_match (s : String) : Option ArchiveComponents :=
  s3ArchiveMatchList s.data

/-- `match_.groupdict()` as a key-indexed lookup, as consulted by the
`ChainMap` built in `process`. -/
def ArchiveComponents.groupdict (m : ArchiveComponents) (k : String) : Option String :=
  if k = "org_id" then some m.org_id
  else if k = "cluster_id" then some m.cluster_id
  else if k = "archive" then some m.archive
  else if k = "timestamp" then some m.timestamp
  else if k = "year" then some m.year
  else if k = "month" then some m.month
  else if k = "day" then some m.day
  else if k = "time" then some m.time
  else if k = "id" then some m.id
  else none

/-! ## The broker context -/

/-- The broker: a string-keyed mapping modelled as an association list. -/
abbrev Broker := List (String × String)

/-- `broker[key]` lookup (first binding wins, as in a Python mapping). -/
def brokerGet (b : Broker) (k : String) : Option String :=
  match b with
  | [] => none
  | kv :: rest => if kv.1 == k then some kv.2 else brokerGet rest k

/-- `del broker[key]`: removes the bindings of `k`, keeps every other key. -/
def brokerDel (b : Broker) (k : String) : Broker :=
  b.filter (fun kv => kv.1 != k)

/-- Lookup in `ChainMap(broker, groups)` as built on line 114 of
`s3_upload_engine.py`: the **broker** is the first map searched, the
match groups are the fallback. -/
def chainMapGet (b : Broker) (g : String → Option String) (k : String) : Option String :=
  match brokerGet b k with
  | some v => some v
  | none => g k

/-! ## SlicedTemplate (modelled from the spec)

`ccx_messaging/utils/sliced_template.py` is imported by the engine but
its source is not part of this unit; the resolver below is modelled
from the specification of the Template Resolver. -/

/-- Modelled from the spec: identifier-start character of a placeholder
name (`$name` / `${name}`). -/
def isIdentStartC (c : Char) : Bool := c.isAlpha || c = '_'

/-- Modelled from the spec: identifier character of a placeholder name. -/
def isIdentC (c : Char) : Bool := c.isAlpha || isDigitC c || c = '_'

/-- Modelled from the spec: a well-formed placeholder name. -/
def identOK : List Char → Bool
  | [] => false
  | c :: cs => isIdentStartC c && cs.all isIdentC

/-- Digits to a natural number, most significant first. -/
def digitsToNat (cs : List Char) : Nat :=
  cs.foldl (fun acc c => acc * 10 + (c.toNat - 48)) 0

/-- Modelled from the spec: an optional (possibly negative) integer
bound of a slice suffix; consumes nothing when no digits follow. -/
def parseIntOpt (cs : List Char) : Option Int × List Char :=
  match cs with
  | '-' :: rest =>
    let ds := rest.takeWhile isDigitC
    if ds.isEmpty then (none, cs)
    else (some (-(digitsToNat ds : Int)), rest.dropWhile isDigitC)
  | _ =>
    let ds := cs.takeWhile isDigitC
    if ds.isEmpty then (none, cs)
    else (some (digitsToNat ds : Int), cs.dropWhile isDigitC)

/-- Modelled from the spec: a slice suffix `[start:stop]` with either
bound optional; returns the bounds and the unconsumed remainder. -/
def parseSlice (cs : List Char) : Option ((Option Int × Option Int) × List Char) :=
  match cs with
  | '[' :: r1 =>
    match parseIntOpt r1 with
    | (a, r2) =>
      match r2 with
      | ':' :: r3 =>
        match parseIntOpt r3 with
        | (b, r4) =>
          match r4 with
          | ']' :: r5 => some ((a, b), r5)
          | _ => none
      | _ => none
  | _ => none

/-- Modelled from the spec: normalise one slice bound against a length
`n`, with Python semantics (negative indices count from the end, both
directions clamp into `[0, n]`). -/
def pySliceIdx (n : Nat) (i : Int) : Nat :=
  if i < 0 then (Int.ofNat n + i).toNat else min i.toNat n

/-- Modelled from the spec: `s[a:b]` on strings, half-open, omitted
`a` defaults to `0` and omitted `b` to the length. -/
def pySlice (s : String) (a b : Option Int) : String :=
  let n := s.length
  let lo := match a with | none => 0 | some i => pySliceIdx n i
  let hi := match b with | none => n | some i => pySliceIdx n i
  String.mk ((s.data.drop lo).take (hi - lo))

/-- Modelled from the spec: apply an optional slice to a resolved value. -/
def applySlice (v : String) : Option (Option Int × Option Int) → String
  | none => v
  | some (a, b) => pySlice v a b

/-- Modelled from the spec: parse the text following a `$`: either
`{name}` or a bare identifier, optionally followed by a slice suffix.
Returns the name, the optional slice and the unconsumed remainder. -/
def parsePlaceholder (cs : List Char) :
    Option (String × Option (Option Int × Option Int) × List Char) :=
  match cs with
  | [] => none
  | c :: r1 =>
    if c = Char.ofNat 123 then
      let name := r1.takeWhile isIdentC
      match r1.dropWhile isIdentC with
      | c2 :: r2 =>
        if c2 = Char.ofNat 125 && identOK name then
          match parseSlice r2 with
          | some (ab, r3) => some (String.mk name, some ab, r3)
          | none => some (String.mk name, none, r2)
        else none
      | [] => none
    else if isIdentStartC c then
      let name := c :: r1.takeWhile isIdentC
      let r2 := r1.dropWhile isIdentC
      match parseSlice r2 with
      | some (ab, r3) => some (String.mk name, some ab, r3)
      | none => some (String.mk name, none, r2)
    else none

/-- Modelled from the spec: the scanning loop of `safe_substitute`.
Fuel-driven so that the recursion is structural; one unit of fuel is
spent per character examined, so `cs.length` fuel always suffices.  A
recognised placeholder whose name resolves is replaced by its
(optionally sliced) value; any other `$` is kept and scanning resumes
right after it, which leaves unresolved placeholders verbatim (the
characters of a placeholder body never contain `$`). -/
def safeSubFuel (src : String → Option String) : Nat → List Char → List Char
  | 0, cs => cs
  | _ + 1, [] => []
  | fuel + 1, c :: cs =>
    if c = '$' then
      match parsePlaceholder cs with
      | some (name, sl, rest) =>
        match src name with
        | some v => (applySlice v sl).data ++ safeSubFuel src fuel rest
        | none => c :: safeSubFuel src fuel cs
      | none => c :: safeSubFuel src fuel cs
    else c :: safeSubFuel src fuel cs

/-- Modelled from the spec: `SlicedTemplate(template).safe_substitute(src)`
— total, never fails on missing keys. -/
def safe_substitute (template : String) (src : String → Option String) : String :=
  String.mk (safeSubFuel src template.length template.data)

/-! ## create_metadata, the report and its JSON serialization -/

/-- The metadata dictionary built by `create_metadata`. -/
structure MsgMetadata where
  cluster_id : Option String
  external_organization : Option String
deriving DecidableEq, Repr

/-- `create_metadata(components)`: reads `cluster_id` and `org_id` with
`components.get`, which returns `None` when the key is found nowhere. -/
def create_metadata (get : String → Option String) : MsgMetadata :=
  { cluster_id := get "cluster_id", external_organization := get "org_id" }

/-- The report dictionary built in `process`
(`path`, `original_path`, `metadata`). -/
structure Report where
  path : String
  original_path : String
  metadata : MsgMetadata
deriving DecidableEq, Repr

/-- JSON string escaping, for values free of control characters. -/
def jstrEsc (s : String) : String :=
  String.mk (s.data.foldr
    (fun c acc =>
      if c = '"' then '\\' :: '"' :: acc
      else if c = '\\' then '\\' :: '\\' :: acc
      else c :: acc) [])

/-- A JSON string literal. -/
def jsonStr (s : String) : String := "\"" ++ jstrEsc s ++ "\""

/-- A JSON string literal or `null`. -/
def jsonOptStr : Option String → String
  | some s => jsonStr s
  | none => "null"

/-- `json.dumps(report)` for the report dictionary of `process`, with
the keys in insertion order and the default `", "` / `": "` separators. -/
def dumpsReport (r : Report) : String :=
  "\x7b\"path\": " ++ jsonStr r.path
    ++ ", \"original_path\": " ++ jsonStr r.original_path
    ++ ", \"metadata\": \x7b\"cluster_id\": " ++ jsonOptStr r.metadata.cluster_id
    ++ ", \"external_organization\": " ++ jsonOptStr r.metadata.external_organization
    ++ "\x7d\x7d"

/-! ## The engine: configuration, events, outcome, `process` -/

/-- Constructor-time configuration of `S3UploadEngine` relevant to
`process` (`dest_bucket`, `archives_path_prefix` — named
`archives_path_pfx` here for technical reasons — and
`archive_name_pattern`). -/
structure EngineConfig where
  dest_bucket : Option String
  archives_path_pfx : Option String
  archive_name_pattern : String
deriving DecidableEq, Repr

/-- The default of the `archive_name_pattern` argument. -/
def defaultArchiveNamePattern : String :=
  "$cluster_id[:2]/$cluster_id/$year$month/$day/$time.tar.gz"

/-- An engine built with the default `archive_name_pattern` and no
`archives_path_prefix` (and no destination bucket, which `process`
only forwards to the uploader). -/
def defaultEngineConfig : EngineConfig :=
  { dest_bucket := none
    archives_path_pfx := none
    archive_name_pattern := defaultArchiveNamePattern }

/-- `S3UploadEngine.compute_target_path`: resolve the template against
the layered components, then prepend `archives_path_prefix ++ "/"` when
that attribute is truthy (`None` and `""` are both falsy in Python). -/
def S3UploadEngine.compute_target_path (cfg : EngineConfig)
    (components : String → Option String) : String :=
  let path := safe_substitute cfg.archive_name_pattern components
  match cfg.archives_path_pfx with
  | some p => if p = "" then path else p ++ "/" ++ path
  | none => path

/-- The errors `process` can raise: `CCXMessagingError`, a `KeyError`
from a broker lookup or deletion, and an error raised by the uploader. -/
inductive PErr where
  | ccxMessagingError : String → PErr
  | keyError : String → PErr
  | uploadError : String → PErr
deriving DecidableEq, Repr

/-- The notifications `process` fires through `self.fire`. -/
inductive Event where
  | preExtract : String → Event
  | onEngineFailure : PErr → Event
  | onEngineSuccess : Report → Event
deriving DecidableEq, Repr

/-- Normal return (the serialized report) or raised error. -/
inductive PResult where
  | ok : String → PResult
  | error : PErr → PResult
deriving DecidableEq, Repr

/-- Everything observable about one `process` invocation: the fired
notifications in order, the `upload_file` calls
(`local_path`, `dest_bucket`, `target_path`), the final broker and the
result. -/
structure Outcome where
  trace : List Event
  uploads : List (String × Option String × String)
  broker : Broker
  result : PResult
deriving DecidableEq, Repr

/-- `S3UploadEngine.process(broker, local_path)`.  `uploadErr` is the
behaviour of the external uploader: `some e` means `upload_file` raises
`e`, `none` means it succeeds.  Mirrors the source line by line:
fire `pre_extract`; read `broker["s3_path"]` (a missing key raises);
match against `S3_ARCHIVE_PATTERN`, on failure fire `on_engine_failure`
and raise `CCXMessagingError("Archive pattern name incorrect")`;
build `ChainMap(broker, match_.groupdict())`; compute the target path;
call `upload_file`; build the report; fire `on_engine_success`;
`del broker["cluster_id"]`; `del broker["s3_path"]`; return
`json.dumps(report)`.  (The `watch_broker` loop between the `s3_path`
read and the match only notifies external watchers and is not modelled.) -/
def S3UploadEngine.process (cfg : EngineConfig) (uploadErr : Option String)
    (broker : Broker) (local_path : String) : Outcome :=
  match brokerGet broker "s3_path" with
  | none =>
    { trace := [.preExtract local_path], uploads := [], broker := broker
      result := .error (.keyError "s3_path") }
  | some s3_path =>
    match S3_ARCHIVE_PATTERN_match s3_path with
    | none =>
      { trace := [.preExtract local_path,
                  .onEngineFailure (.ccxMessagingError "Archive pattern name incorrect")]
        uploads := [], broker := broker
        result := .error (.ccxMessagingError "Archive pattern name incorrect") }
    | some m =>
      let components := chainMapGet broker m.groupdict
      let target_path := S3UploadEngine.compute_target_path cfg components
      let up := (local_path, cfg.dest_bucket, target_path)
      match uploadErr with
      | some e =>
        { trace := [.preExtract local_path], uploads := [up], broker := broker
          result := .error (.uploadError e) }
      | none =>
        let report : Report := { path := target_path, original_path := s3_path
                                 metadata := create_metadata components }
        match brokerGet broker "cluster_id" with
        | none =>
          { trace := [.preExtract local_path, .onEngineSuccess report]
            uploads := [up], broker := broker
            result := .error (.keyError "cluster_id") }
        | some _ =>
          let b1 := brokerDel broker "cluster_id"
          match brokerGet b1 "s3_path" with
          | none =>
            { trace := [.preExtract local_path, .onEngineSuccess report]
              uploads := [up], broker := b1
              result := .error (.keyError "s3_path") }
          | some _ =>
            { trace := [.preExtract local_path, .onEngineSuccess report]
              uploads := [up], broker := brokerDel b1 "s3_path"
              result := .ok (dumpsReport report) }

/-- `true` exactly on an `on_engine_success` notification. -/
def isSuccessEv : Event → Bool
  | .onEngineSuccess _ => true
  | _ => false

/-- `true` exactly on an `on_engine_failure` notification. -/
def isFailureEv : Event → Bool
  | .onEngineFailure _ => true
  | _ => false

/-- `true` exactly on a `pre_extract` notification. -/
def isPreExtractEv : Event → Bool
  | .preExtract _ => true
  | _ => false

/-! ## Concrete inputs used by witnesses and counterexamples -/

/-- The source path of the specification's end-to-end example.  Its
middle segment has 38 characters (10 + 1 + 4 + 1 + 4 + 1 + 4 + 1 + 12),
not 36. -/
def specExamplePath : String :=
  "123/abcdefabcd-efab-cdef-abcd-efabcdefabcd/20240101120000-xyz123"

/-- A well-formed 36-character cluster id (8-4-4-4-12). -/
def clusterOk : String := "abcdefab-cdef-abcd-efab-cdefabcdefab"

/-- A source path whose cluster segment really has 36 characters. -/
def okPath : String := "123/abcdefab-cdef-abcd-efab-cdefabcdefab/20240101120000-xyz123"

/-- The target path the default template resolves to for `okPath`. -/
def okTargetPath : String := "ab/abcdefab-cdef-abcd-efab-cdefabcdefab/202401/01/120000.tar.gz"

/-- A 36-character token made of 35 `a`s and a trailing comma. -/
def clusterComma : String := "aaaaaaaaaaaaaaaaaaaaaaaaaaaaaaaaaaa,"

/-- A 36-character token made of `a`s only. -/
def clusterAs : String := "aaaaaaaaaaaaaaaaaaaaaaaaaaaaaaaaaaaa"

/-- The named groups of the match of `okPath`. -/
def okComponents : ArchiveComponents :=
  { org_id := "123", cluster_id := clusterOk
    archive := "20240101120000-xyz123", timestamp := "20240101120000"
    year := "2024", month := "01", day := "01", time := "120000", id := "xyz123" }

/-- A variable source binding only `x`, for the slice examples. -/
def srcX : String → Option String :=
  fun k => if k = "x" then some "abcdef" else none

/-- A variable source that never finds a key. -/
def srcNone : String → Option String := fun _ => none

/-! ## Helper lemmas -/

theorem brokerGet_brokerDel_self (b : Broker) (k : String) :
    brokerGet (brokerDel b k) k = none := by
  induction b with
  | nil => rfl
  | cons kv rest ih =>
    by_cases h : kv.1 = k
    · simpa [brokerDel, brokerGet, List.filter_cons, bne, h] using ih
    · simpa [brokerDel, brokerGet, List.filter_cons, bne, h] using ih

theorem brokerGet_brokerDel_other (b : Broker) (k k' : String) (h : k' ≠ k) :
    brokerGet (brokerDel b k) k' = brokerGet b k' := by
  induction b with
  | nil => rfl
  | cons kv rest ih =>
    by_cases h1 : kv.1 = k
    · have h2 : kv.1 ≠ k' := by rw [h1]; exact fun e => h e.symm
      simpa [brokerDel, brokerGet, List.filter_cons, bne, h1, h2, h, Ne.symm h] using ih
    · by_cases h2 : kv.1 = k'
      · simp [brokerDel, brokerGet, List.filter_cons, bne, h1, h2, h, Ne.symm h]
      · simpa [brokerDel, brokerGet, List.filter_cons, bne, h1, h2, h, Ne.symm h] using ih

theorem safeSubFuel_nil (src : String → Option String) (fuel : Nat) :
    safeSubFuel src fuel [] = [] := by
  cases fuel <;> rfl

/-- Scanning with a source that never finds a key is the identity. -/
theorem safeSubFuel_miss (src : String → Option String) (hs : ∀ n, src n = none)
    (fuel : Nat) : ∀ cs, safeSubFuel src fuel cs = cs := by
  induction fuel with
  | zero => intro cs; rfl
  | succ f ih =>
    intro cs
    match cs with
    | [] => rfl
    | c :: rest =>
      by_cases hc : c = '$'
      · subst hc
        simp only [safeSubFuel, if_pos rfl]
        cases hp : parsePlaceholder rest with
        | none => simp [ih]
        | some t =>
          obtain ⟨name, sl, r⟩ := t
          simp [hs name, ih]
      · simp [safeSubFuel, hc, ih]

theorem string_length_data (s : String) : s.length = s.data.length := rfl

theorem clusterChar_iff (ch : Char) :
    isClusterChar ch = true ↔ (isDigitC ch || isLowerC ch || ch = '-' || ch = ',') = true := by
  simp only [isClusterChar, Bool.or_eq_true, decide_eq_true_eq]
  tauto

theorem parseTimestampId_cluster (org cluster rest : List Char) (m : ArchiveComponents)
    (h : parseTimestampId org cluster rest = some m) : m.cluster_id = String.mk cluster := by
  unfold parseTimestampId at h
  split at h
  · simp only [] at h
    split at h
    · injection h with h2
      subst h2
      rfl
    · cases h
  · simp at h

/-- Soundness of the matcher for the `cluster_id` group: it is the 36
characters after the first `/`, all drawn from `[0-9,a-z,-]`. -/
theorem s3_match_cluster_sound (p : String) (m : ArchiveComponents)
    (h : S3_ARCHIVE_PATTERN_match p = some m) :
    m.cluster_id.length = 36 ∧ m.cluster_id.data.all isClusterChar = true := by
  unfold S3_ARCHIVE_PATTERN_match s3ArchiveMatchList at h
  split at h
  · cases h
  · split at h
    · rename_i r2 heq
      split at h
      · rename_i hguard
        split at h
        · have hc := parseTimestampId_cluster _ _ _ _ h
          rw [hc]
          exact ⟨hguard.1, hguard.2⟩
        · cases h
      · cases h
    · cases h

/-- Acceptance by the matcher: any 36-character token over the
`cluster_id` class is accepted in the `cluster_id` position. -/
theorem s3_match_cluster_accept (c : String) (h36 : c.length = 36)
    (hcls : ∀ ch ∈ c.data, isClusterChar ch = true) :
    (S3_ARCHIVE_PATTERN_match ("1/" ++ c ++ "/20240101120000-x")).map
      (fun m => m.cluster_id) = some c := by
  have hdata : ("1/" ++ c ++ "/20240101120000-x").data
      = '1' :: '/' :: (c.data ++ ("/20240101120000-x" : String).data) := by
    rw [String.data_append, String.data_append, List.append_assoc]
    rfl
  have hlen : c.data.length = 36 := h36
  have htk : ('1' :: '/' :: (c.data ++ ("/20240101120000-x" : String).data)).takeWhile isDigitC
      = ['1'] := by
    rw [List.takeWhile_cons, if_pos (by decide), List.takeWhile_cons, if_neg (by decide)]
  have hdw : ('1' :: '/' :: (c.data ++ ("/20240101120000-x" : String).data)).dropWhile isDigitC
      = '/' :: (c.data ++ ("/20240101120000-x" : String).data) := by
    rw [List.dropWhile_cons, if_pos (by decide), List.dropWhile_cons, if_neg (by decide)]
  have hall : (c.data ++ ("/20240101120000-x" : String).data).take 36 = c.data :=
    List.take_left' hlen
  have hdrop : (c.data ++ ("/20240101120000-x" : String).data).drop 36
      = ("/20240101120000-x" : String).data := List.drop_left' hlen
  unfold S3_ARCHIVE_PATTERN_match s3ArchiveMatchList
  rw [hdata, htk, hdw]
  simp only [hall, hdrop]
  rw [if_pos ⟨hlen, List.all_eq_true.mpr hcls⟩]
  rfl

/-- A found placeholder `$name` standing alone is replaced by the
resolved value. -/
theorem safe_substitute_found (src : String → Option String) (name v : String)
    (c : Char) (cs : List Char) (hname : name.data = c :: cs)
    (h1 : isIdentStartC c = true) (h2 : ∀ ch ∈ cs, isIdentC ch = true)
    (hsrc : src name = some v) :
    safe_substitute ("$" ++ name) src = v := by
  have hdata : ("$" ++ name).data = '$' :: c :: cs := by
    rw [String.data_append, hname]; rfl
  have hbrace : ¬ (c = Char.ofNat 123) := by
    intro e; rw [e] at h1; exact absurd h1 (by decide)
  have htake : cs.takeWhile isIdentC = cs := List.takeWhile_eq_self_iff.mpr h2
  have hdropw : cs.dropWhile isIdentC = [] :=
    List.dropWhile_eq_nil_iff.mpr (fun x hx => h2 x hx)
  have hpp : parsePlaceholder (c :: cs) = some (String.mk (c :: cs), none, []) := by
    unfold parsePlaceholder
    simp only [if_neg hbrace, if_pos h1, htake, hdropw]
    rfl
  have hmk : String.mk (c :: cs) = name := by rw [← hname]
  have hlen : ("$" ++ name).length = cs.length + 2 := by
    rw [string_length_data, hdata]
    simp
  unfold safe_substitute
  rw [hlen, hdata]
  show String.mk (safeSubFuel src (cs.length + 1 + 1) ('$' :: c :: cs)) = v
  simp only [safeSubFuel]
  rw [if_true]
  simp only [hpp, hmk, hsrc]
  rw [safeSubFuel_nil, List.append_nil]
  rfl

/-! ## Claims -/

/-- A broker carrying the spec's end-to-end source path only. -/
def specExampleBroker : Broker := [("s3_path", specExamplePath)]

/-- A broker carrying a matching source path and the cluster id. -/
def okBroker : Broker := [("s3_path", okPath), ("cluster_id", clusterOk)]

/-- The report `process` builds for `okBroker` / `okPath`. -/
def okReport : Report :=
  { path := okTargetPath, original_path := okPath
    metadata := { cluster_id := some clusterOk, external_organization := some "123" } }

/-- C1 (counterexample): the key `"year"` exists both in the broker
(value `"BROKER"`) and in the match groups (value `"2024"`), and the
`ChainMap(broker, groups)` lookup returns the **broker** value, not the
Archive Components value — refuting the claimed precedence. -/
theorem C1_counterexample :
    (S3_ARCHIVE_PATTERN_match ("1/" ++ clusterAs ++ "/20240101120000-x")).map
      (fun m => chainMapGet [("year", "BROKER")] m.groupdict "year") = some (some "BROKER") ∧
    (S3_ARCHIVE_PATTERN_match ("1/" ++ clusterAs ++ "/20240101120000-x")).map
      (fun m => m.groupdict "year") = some (some "2024") ∧
    ("BROKER" : String) ≠ "2024" :=
  ⟨rfl, rfl, by decide⟩

/-- C1 (amended): in the layered lookup `ChainMap(broker, groups)` the
**Broker** value wins whenever the key is present there; the Archive
Components value is consulted only when the broker lacks the key. -/
theorem C1_theorem :
    (∀ (b : Broker) (g : String → Option String) (k v : String),
      brokerGet b k = some v → chainMapGet b g k = some v) ∧
    (∀ (b : Broker) (g : String → Option String) (k : String),
      brokerGet b k = none → chainMapGet b g k = g k) := by
  constructor
  · intro b g k v h
    simp only [chainMapGet, h]
  · intro b g k h
    simp only [chainMapGet, h]

/-- C1 (witness): the amended precedence at a concrete broker and
concrete match groups. -/
theorem C1_witness :
    chainMapGet [("year", "BROKER")] okComponents.groupdict "year" = some "BROKER" :=
  C1_theorem.1 [("year", "BROKER")] okComponents.groupdict "year" "BROKER" rfl

/-- C2 (counterexample): on the spec's literal broker
`{s3_path: "123/abcdefabcd-efab-cdef-abcd-efabcdefabcd/20240101120000-xyz123"}`
(whose middle segment has 38 characters, not the 36 the pattern
requires) `process` raises the pattern-mismatch error and performs no
upload — it does not return the claimed target path. -/
theorem C2_counterexample :
    (S3UploadEngine.process defaultEngineConfig none specExampleBroker "local").result
      = PResult.error (PErr.ccxMessagingError "Archive pattern name incorrect") ∧
    (S3UploadEngine.process defaultEngineConfig none specExampleBroker "local").uploads = [] ∧
    S3_ARCHIVE_PATTERN_match specExamplePath = none :=
  ⟨rfl, rfl, rfl⟩

/-- C2 (amended): for a source path whose cluster segment really has 36
characters — `"123/abcdefab-cdef-abcd-efab-cdefabcdefab/20240101120000-xyz123"`
— and a broker that also carries `cluster_id` (required for the final
cleanup), `process` with the default template and no prefix computes,
passes to the uploader, and returns in the report's `path` field the
target `"ab/abcdefab-cdef-abcd-efab-cdefabcdefab/202401/01/120000.tar.gz"`. -/
theorem C2_theorem :
    S3UploadEngine.process defaultEngineConfig none okBroker "local" =
      { trace := [.preExtract "local", .onEngineSuccess okReport]
        uploads := [("local", none, okTargetPath)]
        broker := []
        result := .ok (dumpsReport okReport) } := rfl

/-- C3: whenever the broker's `s3_path` does not match the archive
pattern, `process` raises `CCXMessagingError "Archive pattern name
incorrect"`, fires exactly one `on_engine_failure` notification carrying
that error, performs zero uploads, and leaves the broker untouched. -/
theorem C3_theorem (cfg : EngineConfig) (uploadErr : Option String) (b : Broker)
    (lp s : String) (h1 : brokerGet b "s3_path" = some s)
    (h2 : S3_ARCHIVE_PATTERN_match s = none) :
    S3UploadEngine.process cfg uploadErr b lp =
      { trace := [.preExtract lp,
                  .onEngineFailure (.ccxMessagingError "Archive pattern name incorrect")]
        uploads := []
        broker := b
        result := .error (.ccxMessagingError "Archive pattern name incorrect") } ∧
    (S3UploadEngine.process cfg uploadErr b lp).trace.countP isFailureEv = 1 := by
  have he : S3UploadEngine.process cfg uploadErr b lp =
      { trace := [.preExtract lp,
                  .onEngineFailure (.ccxMessagingError "Archive pattern name incorrect")]
        uploads := []
        broker := b
        result := .error (.ccxMessagingError "Archive pattern name incorrect") } := by
    simp only [S3UploadEngine.process, h1, h2]
  exact ⟨he, by rw [he]; rfl⟩

/-- C3 (witness): the behaviour at the spec's literal non-conforming
path `"not-a-valid-path"`. -/
theorem C3_witness :
    S3UploadEngine.process defaultEngineConfig none [("s3_path", "not-a-valid-path")] "local" =
      { trace := [.preExtract "local",
                  .onEngineFailure (.ccxMessagingError "Archive pattern name incorrect")]
        uploads := []
        broker := [("s3_path", "not-a-valid-path")]
        result := .error (.ccxMessagingError "Archive pattern name incorrect") } :=
  (C3_theorem defaultEngineConfig none [("s3_path", "not-a-valid-path")] "local"
    "not-a-valid-path" rfl rfl).1

/-- C4: whenever `process` returns normally, the final broker contains
neither `"cluster_id"` nor `"s3_path"`, and every other key's binding is
exactly what it was before the call. -/
theorem C4_theorem (cfg : EngineConfig) (uploadErr : Option String) (b : Broker)
    (lp s : String)
    (h : (S3UploadEngine.process cfg uploadErr b lp).result = PResult.ok s) :
    brokerGet (S3UploadEngine.process cfg uploadErr b lp).broker "cluster_id" = none ∧
    brokerGet (S3UploadEngine.process cfg uploadErr b lp).broker "s3_path" = none ∧
    ∀ k, k ≠ "cluster_id" → k ≠ "s3_path" →
      brokerGet (S3UploadEngine.process cfg uploadErr b lp).broker k = brokerGet b k := by
  cases h1 : brokerGet b "s3_path" with
  | none =>
    simp only [S3UploadEngine.process, h1] at h
    exact PResult.noConfusion h
  | some sp =>
    cases h2 : S3_ARCHIVE_PATTERN_match sp with
    | none =>
      simp only [S3UploadEngine.process, h1, h2] at h
      exact PResult.noConfusion h
    | some m =>
      cases uploadErr with
      | some e =>
        simp only [S3UploadEngine.process, h1, h2] at h
        exact PResult.noConfusion h
      | none =>
        cases h3 : brokerGet b "cluster_id" with
        | none =>
          simp only [S3UploadEngine.process, h1, h2, h3] at h
          exact PResult.noConfusion h
        | some cv =>
          have h4 : brokerGet (brokerDel b "cluster_id") "s3_path" = some sp := by
            rw [brokerGet_brokerDel_other b "cluster_id" "s3_path" (by decide)]
            exact h1
          simp only [S3UploadEngine.process, h1, h2, h3, h4]
          refine ⟨?_, ?_, ?_⟩
          · rw [brokerGet_brokerDel_other (brokerDel b "cluster_id") "s3_path" "cluster_id"
              (by decide)]
            exact brokerGet_brokerDel_self b "cluster_id"
          · exact brokerGet_brokerDel_self (brokerDel b "cluster_id") "s3_path"
          · intro k hk1 hk2
            rw [brokerGet_brokerDel_other (brokerDel b "cluster_id") "s3_path" k hk2,
                brokerGet_brokerDel_other b "cluster_id" k hk1]

/-- C4 (witness): after the successful run on `okBroker`, `cluster_id`
is gone from the broker. -/
theorem C4_witness :
    brokerGet (S3UploadEngine.process defaultEngineConfig none okBroker "local").broker
      "cluster_id" = none :=
  (C4_theorem defaultEngineConfig none okBroker "local" (dumpsReport okReport) rfl).1

/-- C5 (counterexample): when the uploader raises, the invocation fires
neither `on_engine_success` nor `on_engine_failure` — only the
`pre_extract` notification — refuting "exactly one of the two fires on
every invocation, including those in which the upload collaborator
raises". -/
theorem C5_counterexample :
    (S3UploadEngine.process defaultEngineConfig (some "S3 error") okBroker "local").trace
      = [Event.preExtract "local"] ∧
    (S3UploadEngine.process defaultEngineConfig (some "S3 error") okBroker "local").trace.countP
      isSuccessEv = 0 ∧
    (S3UploadEngine.process defaultEngineConfig (some "S3 error") okBroker "local").trace.countP
      isFailureEv = 0 ∧
    (S3UploadEngine.process defaultEngineConfig (some "S3 error") okBroker "local").uploads
      ≠ [] :=
  ⟨rfl, rfl, rfl, by decide⟩

/-- C5 (amended): on every invocation in which the broker has an
`s3_path` value and the uploader does **not** raise, exactly one
`pre_extract` notification fires, it opens the trace, and exactly one of
`on_engine_success` / `on_engine_failure` fires; when the uploader
raises, only `pre_extract` fires (see the counterexample). -/
theorem C5_theorem (cfg : EngineConfig) (b : Broker) (lp s : String)
    (h1 : brokerGet b "s3_path" = some s) :
    (S3UploadEngine.process cfg none b lp).trace.countP isPreExtractEv = 1 ∧
    (S3UploadEngine.process cfg none b lp).trace.head? = some (.preExtract lp) ∧
    (S3UploadEngine.process cfg none b lp).trace.countP isSuccessEv
      + (S3UploadEngine.process cfg none b lp).trace.countP isFailureEv = 1 := by
  cases h2 : S3_ARCHIVE_PATTERN_match s with
  | none =>
    simp only [S3UploadEngine.process, h1, h2]
    exact ⟨rfl, rfl, rfl⟩
  | some m =>
    cases h3 : brokerGet b "cluster_id" with
    | none =>
      simp only [S3UploadEngine.process, h1, h2, h3]
      exact ⟨rfl, rfl, rfl⟩
    | some cv =>
      have h4 : brokerGet (brokerDel b "cluster_id") "s3_path" = some s := by
        rw [brokerGet_brokerDel_other b "cluster_id" "s3_path" (by decide)]
        exact h1
      simp only [S3UploadEngine.process, h1, h2, h3, h4]
      exact ⟨rfl, rfl, rfl⟩

/-- C5 (witness): the amended notification discipline at `okBroker`. -/
theorem C5_witness :
    (S3UploadEngine.process defaultEngineConfig none okBroker "local").trace.countP
      isPreExtractEv = 1 ∧
    (S3UploadEngine.process defaultEngineConfig none okBroker "local").trace.head?
      = some (.preExtract "local") ∧
    (S3UploadEngine.process defaultEngineConfig none okBroker "local").trace.countP isSuccessEv
      + (S3UploadEngine.process defaultEngineConfig none okBroker "local").trace.countP
          isFailureEv = 1 :=
  C5_theorem defaultEngineConfig okBroker "local" okPath rfl

/-- C6 (counterexample): the pattern accepts a 36-character `cluster_id`
containing a comma — a character outside the claimed
digits/lowercase/hyphen alphabet. -/
theorem C6_counterexample :
    (S3_ARCHIVE_PATTERN_match ("1/" ++ clusterComma ++ "/20240101120000-x")).map
      (fun m => m.cluster_id) = some clusterComma ∧
    clusterComma.length = 36 ∧
    ¬ (clusterComma.data.all (fun ch => isDigitC ch || isLowerC ch || ch = '-') = true) :=
  ⟨rfl, rfl, by decide⟩

/-- C6 (amended): the `cluster_id` position accepts exactly the
36-character strings over digits, lowercase letters, hyphens **and
commas**: every successful match has a `cluster_id` of length 36 over
that alphabet, and every such token is accepted in that position. -/
theorem C6_theorem :
    (∀ (p : String) (m : ArchiveComponents), S3_ARCHIVE_PATTERN_match p = some m →
      m.cluster_id.length = 36 ∧
      ∀ ch ∈ m.cluster_id.data,
        (isDigitC ch || isLowerC ch || ch = '-' || ch = ',') = true) ∧
    (∀ c : String, c.length = 36 →
      (∀ ch ∈ c.data, (isDigitC ch || isLowerC ch || ch = '-' || ch = ',') = true) →
      (S3_ARCHIVE_PATTERN_match ("1/" ++ c ++ "/20240101120000-x")).map
        (fun m => m.cluster_id) = some c) := by
  constructor
  · intro p m h
    obtain ⟨h36, hall⟩ := s3_match_cluster_sound p m h
    exact ⟨h36, fun ch hch =>
      (clusterChar_iff ch).mp (List.all_eq_true.mp hall ch hch)⟩
  · intro c h36 hcls
    exact s3_match_cluster_accept c h36
      (fun ch hch => (clusterChar_iff ch).mpr (hcls ch hch))

/-- C6 (witness): the all-`a` 36-character token is accepted with
`cluster_id` equal to it. -/
theorem C6_witness :
    (S3_ARCHIVE_PATTERN_match ("1/" ++ clusterAs ++ "/20240101120000-x")).map
      (fun m => m.cluster_id) = some clusterAs :=
  C6_theorem.2 clusterAs (by decide) (by decide)

/-- C7: template resolution is total (`safe_substitute` is a function
into strings — no failure on missing keys); when no placeholder name is
found in the source, the template is returned verbatim; a found
placeholder is replaced by its value, and the spec's slice examples
resolve to the sliced value. -/
theorem C7_theorem :
    (∀ (src : String → Option String) (t : String),
      (∀ n, src n = none) → safe_substitute t src = t) ∧
    (∀ (src : String → Option String) (name v : String) (c : Char) (cs : List Char),
      name.data = c :: cs → isIdentStartC c = true → (∀ ch ∈ cs, isIdentC ch = true) →
      src name = some v → safe_substitute ("$" ++ name) src = v) ∧
    safe_substitute "$x[:2]" srcX = "ab" ∧
    safe_substitute "$x[2:]" srcX = "cdef" := by
  refine ⟨?_, ?_, rfl, rfl⟩
  · intro src t hs
    unfold safe_substitute
    rw [safeSubFuel_miss src hs t.length t.data]
  · intro src name v c cs hname h1 h2 hsrc
    exact safe_substitute_found src name v c cs hname h1 h2 hsrc

/-- C7 (witness): an unrecognized placeholder stays verbatim and a found
one is replaced, at concrete inputs. -/
theorem C7_witness :
    safe_substitute "a $unknown[1:3] b" srcNone = "a $unknown[1:3] b" ∧
    safe_substitute ("$" ++ "x") srcX = "abcdef" :=
  ⟨C7_theorem.1 srcNone "a $unknown[1:3] b" (fun _ => rfl),
   C7_theorem.2.1 srcX "x" "abcdef" 'x' [] rfl (by decide)
     (fun ch hch => absurd hch (List.not_mem_nil ch)) rfl⟩

/-- C8: when the uploader raises, the error propagates unchanged, the
upload is attempted exactly once (no retry), no `on_engine_failure`
notification fires, and the broker is untouched. -/
theorem C8_theorem (cfg : EngineConfig) (b : Broker) (lp s e : String)
    (m : ArchiveComponents)
    (h1 : brokerGet b "s3_path" = some s) (h2 : S3_ARCHIVE_PATTERN_match s = some m) :
    S3UploadEngine.process cfg (some e) b lp =
      { trace := [.preExtract lp]
        uploads := [(lp, cfg.dest_bucket,
          S3UploadEngine.compute_target_path cfg (chainMapGet b m.groupdict))]
        broker := b
        result := .error (.uploadError e) } := by
  simp only [S3UploadEngine.process, h1, h2]

/-- C8 (witness): the uploader error `"S3 error"` propagates unchanged
from the concrete run on `okBroker`. -/
theorem C8_witness :
    S3UploadEngine.process defaultEngineConfig (some "S3 error") okBroker "local" =
      { trace := [.preExtract "local"]
        uploads := [("local", none, okTargetPath)]
        broker := okBroker
        result := .error (.uploadError "S3 error") } :=
  C8_theorem defaultEngineConfig okBroker "local" okPath "S3 error" okComponents rfl rfl

/-- A broker that also carries an `org_id` entry overriding the matched
organization id in the layered lookup. -/
def orgBroker : Broker :=
  [("s3_path", okPath), ("cluster_id", clusterOk), ("org_id", "999")]

/-- C9 (counterexample): with a broker carrying `org_id = "999"`, the
successful report's `metadata.external_organization` is `"999"`, not the
matched `org_id` `"123"` — the broker-first `ChainMap` feeds
`create_metadata`. -/
theorem C9_counterexample :
    (S3UploadEngine.process defaultEngineConfig none orgBroker "local").result
      = PResult.ok (dumpsReport
          { path := okTargetPath, original_path := okPath
            metadata := { cluster_id := some clusterOk
                          external_organization := some "999" } }) ∧
    (S3_ARCHIVE_PATTERN_match okPath).map (fun m => m.org_id) = some "123" ∧
    ("999" : String) ≠ "123" :=
  ⟨rfl, rfl, by decide⟩

/-- C9 (amended): on success, `process` returns the JSON serialization
of a report with exactly the keys `path` (the resolved target path),
`original_path` (the broker's `s3_path`) and `metadata`, where
`metadata` has exactly the keys `cluster_id` and `external_organization`
— both read through the layered broker-first lookup, so
`external_organization` is the matched `org_id` only when the broker has
no `org_id` entry. -/
theorem C9_theorem (cfg : EngineConfig) (b : Broker) (lp s c : String)
    (m : ArchiveComponents)
    (h1 : brokerGet b "s3_path" = some s) (h2 : S3_ARCHIVE_PATTERN_match s = some m)
    (h3 : brokerGet b "cluster_id" = some c) :
    S3UploadEngine.process cfg none b lp =
      { trace := [.preExtract lp, .onEngineSuccess
          { path := S3UploadEngine.compute_target_path cfg (chainMapGet b m.groupdict)
            original_path := s
            metadata := { cluster_id := chainMapGet b m.groupdict "cluster_id"
                          external_organization := chainMapGet b m.groupdict "org_id" } }]
        uploads := [(lp, cfg.dest_bucket,
          S3UploadEngine.compute_target_path cfg (chainMapGet b m.groupdict))]
        broker := brokerDel (brokerDel b "cluster_id") "s3_path"
        result := .ok (dumpsReport
          { path := S3UploadEngine.compute_target_path cfg (chainMapGet b m.groupdict)
            original_path := s
            metadata := { cluster_id := chainMapGet b m.groupdict "cluster_id"
                          external_organization := chainMapGet b m.groupdict "org_id" } }) } := by
  have h4 : brokerGet (brokerDel b "cluster_id") "s3_path" = some s := by
    rw [brokerGet_brokerDel_other b "cluster_id" "s3_path" (by decide)]
    exact h1
  simp only [S3UploadEngine.process, h1, h2, h3, h4, create_metadata]

/-- C9 (witness): the full success outcome at `orgBroker`. -/
theorem C9_witness :
    S3UploadEngine.process defaultEngineConfig none orgBroker "local" =
      { trace := [.preExtract "local", .onEngineSuccess
          { path := okTargetPath, original_path := okPath
            metadata := { cluster_id := some clusterOk
                          external_organization := some "999" } }]
        uploads := [("local", none, okTargetPath)]
        broker := [("org_id", "999")]
        result := .ok (dumpsReport
          { path := okTargetPath, original_path := okPath
            metadata := { cluster_id := some clusterOk
                          external_organization := some "999" } }) } :=
  C9_theorem defaultEngineConfig orgBroker "local" okPath clusterOk okComponents rfl rfl rfl

/-- C10: for every broker that lacks `"cluster_id"`, an invocation whose
match and upload succeed still raises `KeyError "cluster_id"` at the
final cleanup, after the upload has been performed and the
`on_engine_success` notification fired; the broker is left unchanged. -/
theorem C10_theorem (cfg : EngineConfig) (b : Broker) (lp s : String)
    (m : ArchiveComponents)
    (h1 : brokerGet b "s3_path" = some s) (h2 : S3_ARCHIVE_PATTERN_match s = some m)
    (h3 : brokerGet b "cluster_id" = none) :
    S3UploadEngine.process cfg none b lp =
      { trace := [.preExtract lp, .onEngineSuccess
          { path := S3UploadEngine.compute_target_path cfg (chainMapGet b m.groupdict)
            original_path := s
            metadata := { cluster_id := chainMapGet b m.groupdict "cluster_id"
                          external_organization := chainMapGet b m.groupdict "org_id" } }]
        uploads := [(lp, cfg.dest_bucket,
          S3UploadEngine.compute_target_path cfg (chainMapGet b m.groupdict))]
        broker := b
        result := .error (.keyError "cluster_id") } := by
  simp only [S3UploadEngine.process, h1, h2, h3, create_metadata]

/-- C10 (witness): the spec's end-to-end broker shape
`{s3_path: <matching path>}` — without `cluster_id` — uploads, fires
`on_engine_success`, then raises `KeyError "cluster_id"`. -/
theorem C10_witness :
    S3UploadEngine.process defaultEngineConfig none [("s3_path", okPath)] "local" =
      { trace := [.preExtract "local", .onEngineSuccess
          { path := okTargetPath, original_path := okPath
            metadata := { cluster_id := some clusterOk
                          external_organization := some "123" } }]
        uploads := [("local", none, okTargetPath)]
        broker := [("s3_path", okPath)]
        result := .error (.keyError "cluster_id") } :=
  C10_theorem defaultEngineConfig [("s3_path", okPath)] "local" okPath okComponents rfl rfl rfl
